import Mathlib

/-!
Verification development for the material-scrape repository.

The definitions below are a shallow embedding of the logic in
`src/server.mjs` and `src/server-n8n-optimized.mjs`: the URL validation,
the scrape-job entry point, the login step interpreter with its success
heuristic, the navigation and screenshot stages of `priceScraper`, the
browser crash/restart handler, the pool `validate` predicates, the
request-interception policies, and the configuration records handed to
`generic-pool` and `p-queue`.  External effects (page interaction,
navigation outcomes, screenshot attempts) are supplied by explicit
environment records, so each embedded function is a pure, executable
translation of the source's control flow.
-/

namespace MaterialScrape

/-! ## URL model

`server.mjs` validates URLs with the WHATWG `new URL(...)` constructor and
then checks `url.protocol`.  The constructor itself is library code, so we
model the part `isValidUrl` depends on: extracting the scheme
(`[A-Za-z][A-Za-z0-9+.-]* ":"`) from the front of the string.  A string
with no such scheme prefix does not parse. -/

structure URLRecord where
  /-- The scheme, lowercased, with the trailing colon, as in JS `url.protocol`. -/
  protocol : String
  /-- Everything after the first colon. -/
  rest : String
deriving Repr, DecidableEq

/-- Character-list lowercasing (JS `toLowerCase` on the ASCII strings the
source applies it to). -/
def strToLower (s : String) : String :=
  String.mk (s.data.map Char.toLower)

def isSchemeStartChar (c : Char) : Bool := c.isAlpha

def isSchemeChar (c : Char) : Bool :=
  c.isAlphanum || c == '+' || c == '-' || c == '.'

/-- Scan scheme characters until the colon; fail if a non-scheme character
appears first or the string ends without a colon. -/
def schemeLoop : List Char → List Char → Option (List Char × List Char)
  | [], _ => none
  | c :: cs, acc =>
    if c == ':' then some (acc.reverse, cs)
    else if isSchemeChar c then schemeLoop cs (c :: acc)
    else none

/-- Model of the WHATWG URL constructor used by `isValidUrl` in
`src/server.mjs` lines 26-34, restricted to the scheme component that
`isValidUrl` inspects.  `none` models the constructor throwing. -/
def jsParseURL (s : String) : Option URLRecord :=
  match s.data with
  | [] => none
  | c :: cs =>
    if isSchemeStartChar c then
      match schemeLoop cs [c] with
      | some (scheme, rest) =>
        if rest.isEmpty then none
        else some ⟨strToLower (String.mk scheme) ++ ":", String.mk rest⟩
      | none => none
    else none

/-- `isValidUrl` from `src/server.mjs` lines 26-34 (identical in
`src/server-n8n-optimized.mjs` lines 60-67): the string must parse as a
URL and its protocol must be `http:` or `https:`. -/
def isValidUrl (s : String) : Bool :=
  match jsParseURL s with
  | some url => url.protocol == "http:" || url.protocol == "https:"
  | none => false

/-! ## Job results

`runScrapeJob` / `priceScraper` return `{ data, type }` records where
`data` is either JPEG bytes or a `JSON.stringify({success:false, error})`
payload. -/

inductive ScrapeData where
  /-- `JSON.stringify({ success: false, error: message })`. -/
  | jsonError (message : String)
  /-- Raw screenshot bytes. -/
  | imageBytes (bytes : List Nat)
deriving Repr, DecidableEq

structure ScrapeResult where
  data : ScrapeData
  type : String
deriving Repr, DecidableEq

/-- The JSON failure result shape used throughout `server.mjs`. -/
def jsonFailure (message : String) : ScrapeResult :=
  { data := .jsonError message, type := "application/json" }

/-- An image result, as returned from the screenshot stage. -/
def imageResult (bytes : List Nat) : ScrapeResult :=
  { data := .imageBytes bytes, type := "image/jpeg" }

/-! ## runScrapeJob (src/server.mjs lines 438-566)

The job context carries an optional `url` field (`undefined` and the empty
string are both falsy in `if (!context.url || ...)`).  Interpolating an
absent field into the error template prints `undefined`. -/

structure ScrapeContext where
  url : Option String
deriving Repr, DecidableEq

/-- JS template-literal rendering of a possibly-absent string field. -/
def jsTemplateShow : Option String → String
  | none => "undefined"
  | some s => s

/-- The `Invalid URL: ...` failure produced at the top of `runScrapeJob`
(lines 440-449) and again defensively in `priceScraper` (lines 607-616). -/
def invalidUrlResult (url : Option String) : ScrapeResult :=
  jsonFailure ("Invalid URL: " ++ jsTemplateShow url ++
    ". URL must start with http:// or https://")

/-- Outcome of one `pagePool.acquire()` call: a page (possibly already
closed on arrival) or a thrown acquisition error. -/
inductive AcquireOutcome where
  | ok (closedOnArrival : Bool)
  | err (msg : String)

/-- Result of the acquire-retry loop of `runScrapeJob` (lines 473-499),
tracking how many `pagePool.acquire()` calls were made. -/
inductive AcquireResult where
  /-- A valid page was acquired after `calls` acquire calls. -/
  | acquired (calls : Nat)
  /-- Attempt 3 threw and the error was re-thrown (`if (attempt === 3) throw`). -/
  | failedThrow (msg : String) (calls : Nat)
  /-- All three acquires returned invalid pages; the loop fell through and
  `runScrapeJob` throws `Failed to acquire a valid page from the pool`. -/
  | exhausted (calls : Nat)

/-- The body of the `for (let attempt = 1; attempt <= 3; attempt++)`
acquire loop of `runScrapeJob`, over the list of remaining attempt
numbers: a closed page is destroyed and the loop continues; an acquire
error is re-thrown only on the third attempt (`if (attempt === 3)`). -/
def acquireLoopGo (acq : Nat → AcquireOutcome) (calls : Nat) :
    List Nat → AcquireResult
  | [] => .exhausted calls
  | attempt :: rest =>
    match acq attempt with
    | .ok false => .acquired (calls + 1)
    | .ok true => acquireLoopGo acq (calls + 1) rest
    | .err m =>
      if attempt == 3 then .failedThrow m (calls + 1)
      else acquireLoopGo acq (calls + 1) rest

/-- The acquire loop, run over attempts 1, 2, 3. -/
def acquireLoop (acq : Nat → AcquireOutcome) : AcquireResult :=
  acquireLoopGo acq 0 [1, 2, 3]

/-- Environment for one `runScrapeJob` run: browser connectivity, the
outcomes of successive pool acquisitions, and the result `priceScraper`
would produce on the acquired page. -/
structure RunEnv where
  browserConnected : Bool
  /-- Whether the browser comes back within the 30s wait loop after a
  restart triggered at the top of `runScrapeJob` (lines 452-466). -/
  browserRecovers : Bool
  acquire : Nat → AcquireOutcome
  scraper : ScrapeResult

/-- Shallow embedding of `runScrapeJob` (src/server.mjs lines 438-566).
Returns the delivered result (`Except.error` models the uncaught
`Browser not available after restart` throw, which escapes the function's
`try`) together with the number of `pagePool.acquire()` calls made. -/
def runScrapeJob (env : RunEnv) (ctx : ScrapeContext) :
    Except String ScrapeResult × Nat :=
  match ctx.url with
  | none => (.ok (invalidUrlResult none), 0)
  | some u =>
    if u.isEmpty || !isValidUrl u then
      (.ok (invalidUrlResult (some u)), 0)
    else if !env.browserConnected && !env.browserRecovers then
      (.error "Browser not available after restart", 0)
    else
      match acquireLoop env.acquire with
      | .acquired n => (.ok env.scraper, n)
      | .failedThrow m n => (.ok (jsonFailure m), n)
      | .exhausted n =>
        (.ok (jsonFailure "Failed to acquire a valid page from the pool"), n)

/-! ## Login steps (src/server.mjs lines 742-858)

A `LoginStep` is one of `input{selector, valueKey}`, `click{selector}`,
`clickText{text}`, `wait{time}`.  The interpreter executes them in order,
incrementing `stepSuccess` when a step's page interaction succeeds; a
`wait` step merely sleeps and then increments unconditionally
(lines 828-831).  Page-interaction outcomes are external, so the
environment decides whether the fallible part of the i-th step succeeds. -/

inductive LoginStep where
  | input (selector : String) (valueKey : String)
  | click (selector : String)
  | clickText (text : String)
  | wait (time : Option Nat)
deriving Repr, DecidableEq

structure LoginSite where
  site : String
  url : String
  steps : List LoginStep
deriving Repr, DecidableEq

/-- Whether the i-th step increments `stepSuccess`, given that the
environment says its page interaction succeeded (`envOk`).  `wait` steps
increment regardless of page state. -/
def stepSucceeds (envOk : Bool) : LoginStep → Bool
  | .wait _ => true
  | .input _ _ => envOk
  | .click _ => envOk
  | .clickText _ => envOk

/-- The `stepSuccess` counter after running the steps in order, the i-th
step's fallible interaction succeeding according to `env i`
(src/server.mjs lines 742-839). -/
def runLoginSteps (env : Nat → Bool) : Nat → List LoginStep → Nat
  | _, [] => 0
  | i, s :: rest =>
    (if stepSucceeds (env i) s then 1 else 0) + runLoginSteps env (i + 1) rest

def isWaitStep : LoginStep → Bool
  | .wait _ => true
  | _ => false

/-- The login-success decision of src/server.mjs lines 847-858: success if
the current URL differs from the login URL, else if
`stepSuccess >= steps.length * 0.75` (JS double arithmetic; `0.75` and
small products are exact, so `ℚ` renders it faithfully), else failure. -/
def classifyLogin (currentUrl loginUrl : String) (stepSuccess nSteps : Nat) :
    Bool :=
  if currentUrl ≠ loginUrl then true
  else if (stepSuccess : ℚ) ≥ (nSteps : ℚ) * (3 / 4) then true
  else false

/-- Whether `pat` occurs at the head of the character list. -/
def charsHavePrefix : List Char → List Char → Bool
  | _, [] => true
  | [], _ :: _ => false
  | c :: cs, p :: ps => c == p && charsHavePrefix cs ps

/-- Whether `pat` occurs anywhere in `hay`. -/
def charsContain (hay pat : List Char) : Bool :=
  match hay with
  | [] => pat.isEmpty
  | _ :: rest => charsHavePrefix hay pat || charsContain rest pat

/-- JS `String.prototype.includes`. -/
def jsIncludes (s pat : String) : Bool :=
  charsContain s.data pat.data

/-! ## Screenshot stage (src/server.mjs lines 976-1033) -/

/-- Screenshot parameters (`quality` and the viewport `clip`). -/
structure ShotParams where
  quality : Nat
  width : Nat
  height : Nat
deriving Repr, DecidableEq

/-- Parameters of the three main attempts: `quality: 70`,
`clip: {x:0, y:0, width:1366, height:768}`. -/
def mainShotParams : ShotParams := ⟨70, 1366, 768⟩

/-- Parameters of the single fallback attempt: `quality: 50`,
`clip: {x:0, y:0, width:800, height:600}`. -/
def fallbackShotParams : ShotParams := ⟨50, 800, 600⟩

inductive ShotOutcome where
  | ok (bytes : List Nat)
  | err (msg : String)
deriving Repr, DecidableEq

/-- One `page.screenshot` call: how long it would take and what it would
produce. -/
structure ShotCall where
  duration : Nat
  outcome : ShotOutcome

def SCREENSHOT_TIMEOUT : Nat := 30000

/-- The `Promise.race` of a screenshot attempt against the 30s timer
(lines 984-994).  If the screenshot has not settled before the timer
fires, the attempt rejects with `Screenshot timeout`. -/
def racedShot (c : ShotCall) : ShotOutcome :=
  if c.duration ≥ SCREENSHOT_TIMEOUT then .err "Screenshot timeout"
  else c.outcome

/-- The screenshot retry loop (`for attempt in 1..3`), over the list of
remaining attempt numbers: each main attempt is raced against the timeout;
on the third failure (`if (attempt === 3)`) the un-raced fallback attempt
runs with `fallbackShotParams`; if it succeeds its bytes become the
screenshot, otherwise the original third-attempt error is re-thrown.
`Except.error` models the re-thrown error; `.ok none` models the loop
ending with no screenshot. -/
def screenshotLoopGo (shoot : ShotParams → Nat → ShotCall) :
    List Nat → Except String (Option (List Nat))
  | [] => .ok none
  | attempt :: rest =>
    match racedShot (shoot mainShotParams attempt) with
    | .ok b => .ok (some b)
    | .err e =>
      if attempt == 3 then
        match (shoot fallbackShotParams 4).outcome with
        | .ok b => .ok (some b)
        | .err _ => .error e
      else screenshotLoopGo shoot rest

/-- The whole screenshot stage: run the retry loop over attempts 1, 2, 3;
a thrown error or an empty screenshot is folded by the enclosing `catch`
into a JSON failure (lines 1029-1038). -/
def screenshotStage (shoot : ShotParams → Nat → ShotCall) : ScrapeResult :=
  match screenshotLoopGo shoot [1, 2, 3] with
  | .ok (some b) => imageResult b
  | .ok none =>
    jsonFailure "Failed to capture screenshot after multiple attempts"
  | .error e => jsonFailure e

/-! ## The priceScraper pipeline (src/server.mjs lines 569-1039)

We model the pipeline for executions in which the page stays open (page
closures raise exceptions that the outer catch folds into a JSON failure;
none of the claims concerns that path).  The environment supplies the page
URL observed after the login navigation and after the steps, the outcome
of each navigation attempt, and the screenshot calls. -/

structure PSEnv where
  /-- Success of the fallible interaction of the i-th login step. -/
  stepOk : Nat → Bool
  /-- `page.url()` right after navigating to the login page (line 717). -/
  urlAtLoginPage : String
  /-- `page.url()` after the steps and the 3s wait (line 847). -/
  urlAfterSteps : String
  /-- Whether navigation attempt i (1-based, up to 3) succeeds. -/
  navOk : Nat → Bool
  /-- The message of the navigation error thrown on the final attempt. -/
  navErrMsg : String
  /-- Screenshot calls, by parameters and attempt number. -/
  shoot : ShotParams → Nat → ShotCall

/-- Observable pipeline actions, to state what the pipeline proceeds to
do (navigations and captures). -/
inductive PipeAction where
  | loginGoto (url : String)
  | execStep (i : Nat)
  | navGoto (url : String)
  | capture
deriving Repr, DecidableEq

/-- The Winsupply special case (lines 721-729): the site is `winsupply`
and the login navigation landed on a `/Location/` URL, so login is marked
successful without executing any steps. -/
def winsupplyRedirect (env : PSEnv) (site : LoginSite) : Bool :=
  strToLower site.site == "winsupply" &&
    jsIncludes env.urlAtLoginPage "/Location/"

/-- The login phase for a matched site with credentials: either the
Winsupply redirect short-circuit, or run the steps and classify.  Returns
`(loginSuccess, stepSuccess, actions)`. -/
def loginPhase (env : PSEnv) (site : LoginSite) :
    Bool × Nat × List PipeAction :=
  if winsupplyRedirect env site then
    (true, 0, [PipeAction.loginGoto site.url])
  else
    let s := runLoginSteps env.stepOk 0 site.steps
    (classifyLogin env.urlAfterSteps site.url s site.steps.length, s,
      PipeAction.loginGoto site.url ::
        (List.range site.steps.length).map PipeAction.execStep)

/-- The first of the three navigation attempts (lines 885-924) that
succeeds, if any. -/
def navAttempts (navOk : Nat → Bool) : Option Nat :=
  if navOk 1 then some 1
  else if navOk 2 then some 2
  else if navOk 3 then some 3
  else none

/-- Shallow embedding of the post-configuration part of `priceScraper`:
optional login phase (for a matched site with credentials), then —
regardless of the login outcome — navigation to the target URL, then the
screenshot stage.  Returns the result, the action trace, and the login
classification (`none` when no login site matched). -/
def priceScraperModel (env : PSEnv) (url : String)
    (matched : Option LoginSite) :
    ScrapeResult × List PipeAction × Option Bool :=
  let loginPart : List PipeAction × Option Bool :=
    match matched with
    | none => ([], none)
    | some site =>
      let r := loginPhase env site
      (r.2.2, some r.1)
  match navAttempts env.navOk with
  | none =>
    (jsonFailure env.navErrMsg, loginPart.1 ++ [PipeAction.navGoto url],
      loginPart.2)
  | some _ =>
    (screenshotStage env.shoot,
      loginPart.1 ++ [PipeAction.navGoto url, PipeAction.capture],
      loginPart.2)

/-! ## Crash/restart handler (src/server.mjs lines 364-429)

`handleBrowserCrash` is guarded by the module-level `isRestarting` flag.
Past the guard it increments `restartAttempts`, exits the process when the
counter exceeds `MAX_RESTART_ATTEMPTS`, otherwise tears down pages, pool
and browser, waits `RESTART_DELAY`, and re-runs `initializeBrowser`
(which resets `restartAttempts` to 0 on success, line 228).  On a reinit
failure the catch clears the flag and schedules a retry. -/

def MAX_RESTART_ATTEMPTS : Nat := 5

def RESTART_DELAY : Nat := 5000

structure RestartState where
  isRestarting : Bool
  restartAttempts : Nat
  /-- Whether a live browser/pool pair exists. -/
  browserLive : Bool
  /-- Number of teardown sequences (page/pool/browser close) performed. -/
  teardowns : Nat
deriving Repr, DecidableEq

/-- The externally observable outcome of one `handleBrowserCrash` call. -/
inductive RestartEvent where
  /-- The idempotent-entry guard fired: already restarting. -/
  | skipped
  /-- `process.exit(1)`: the attempt bound was exceeded. -/
  | fatalExit
  /-- Teardown and `initializeBrowser` both succeeded. -/
  | success
  /-- The restart sequence failed; a retry was scheduled via `setTimeout`. -/
  | failureRetry
deriving Repr, DecidableEq

/-- Shallow embedding of `handleBrowserCrash` (src/server.mjs lines
364-429).  `reinitSucceeds` says whether the teardown-and-
`initializeBrowser` sequence completes without throwing. -/
def handleBrowserCrash (reinitSucceeds : Bool) (s : RestartState) :
    RestartState × RestartEvent :=
  if s.isRestarting then (s, .skipped)
  else
    let s1 : RestartState :=
      { s with isRestarting := true, restartAttempts := s.restartAttempts + 1 }
    if s1.restartAttempts > MAX_RESTART_ATTEMPTS then (s1, .fatalExit)
    else if reinitSucceeds then
      ({ s1 with
          restartAttempts := 0
          isRestarting := false
          browserLive := true
          teardowns := s1.teardowns + 1 }, .success)
    else
      ({ s1 with
          isRestarting := false
          browserLive := false
          teardowns := s1.teardowns + 1 }, .failureRetry)

/-! ## Queue and pool configuration

`src/server.mjs` line 435 constructs `new PQueue({ concurrency: 1 })`;
p-queue's `timeout` option then defaults to `undefined` and
`throwOnTimeout` to `false`.  `src/server-n8n-optimized.mjs` lines 294-299
constructs the queue with `concurrency: 1`, `timeout: 45000`,
`throwOnTimeout: true` (from `MEMORY_LIMITS`). -/

structure QueueOptions where
  concurrency : Nat
  timeout : Option Nat
  throwOnTimeout : Bool
deriving Repr, DecidableEq

def serverQueueOptions : QueueOptions :=
  { concurrency := 1, timeout := none, throwOnTimeout := false }

def n8nQueueOptions : QueueOptions :=
  { concurrency := 1, timeout := some 45000, throwOnTimeout := true }

/-- The `generic-pool` options of `createPagePool` in `src/server.mjs`
lines 302-312. -/
structure PoolOptions where
  max : Nat
  min : Nat
  idleTimeoutMillis : Nat
  acquireTimeoutMillis : Nat
  testOnBorrow : Bool
  fifo : Bool
deriving Repr, DecidableEq

def serverPoolOptions : PoolOptions :=
  { max := 1, min := 1, idleTimeoutMillis := 600000,
    acquireTimeoutMillis := 60000, testOnBorrow := true, fifo := true }

/-! ## Serialized executor semantics (for C1)

Modelled from the spec: the strictly serialized admission semantics of the
Job Queue executor (the p-queue library configured at src/server.mjs line
435 is an external dependency, not part of the source).  A job is admitted
only while fewer than `concurrency` jobs are in flight; each admitted job
holds the Session Resource from its start time until it finishes.  The
scheduler clock advances on every step, so intervals have positive
length. -/

structure SchedState where
  waiting : List Nat
  /-- In-flight jobs, with their start instants. -/
  running : List (Nat × Nat)
  /-- Completed jobs, as `(jobId, start, finish)` interval records. -/
  finished : List (Nat × Nat × Nat)
  clock : Nat
deriving Repr, DecidableEq

def initState (jobs : List Nat) : SchedState :=
  { waiting := jobs, running := [], finished := [], clock := 0 }

/-- One scheduler step: dispatch the head of the waiting list when capacity
allows, finish an in-flight job, or let time pass. -/
inductive QStep (c : Nat) : SchedState → SchedState → Prop where
  | dispatch (s : SchedState) (j : Nat) (rest : List Nat)
      (hw : s.waiting = j :: rest)
      (hc : s.running.length < c) :
      QStep c s ⟨rest, (j, s.clock) :: s.running, s.finished, s.clock + 1⟩
  | finish (s : SchedState) (j t0 : Nat) (pre post : List (Nat × Nat))
      (hr : s.running = pre ++ (j, t0) :: post) :
      QStep c s
        ⟨s.waiting, pre ++ post, (j, t0, s.clock) :: s.finished, s.clock + 1⟩
  | tick (s : SchedState) :
      QStep c s ⟨s.waiting, s.running, s.finished, s.clock + 1⟩

/-- Two resource-held intervals `[start, finish)` do not overlap. -/
def IntervalsDisjoint (a b : Nat × Nat × Nat) : Prop :=
  a.2.2 ≤ b.2.1 ∨ b.2.2 ≤ a.2.1

/-- The serialization invariant for a concurrency-1 queue: at most one job
in flight, finished intervals well-formed and within the clock, every
finished interval over before any in-flight job started, and all finished
intervals pairwise disjoint. -/
def SerialInv (s : SchedState) : Prop :=
  s.running.length ≤ 1 ∧
  (∀ e ∈ s.finished, e.2.1 < e.2.2 ∧ e.2.2 ≤ s.clock) ∧
  (∀ r ∈ s.running, r.2 < s.clock ∧ ∀ e ∈ s.finished, e.2.2 ≤ r.2) ∧
  s.finished.Pairwise IntervalsDisjoint

/-! ## Pool validate predicates (for C8) -/

/-- The state a pool `validate` callback can observe about a page. -/
structure PageRecord where
  isClosed : Bool
  hasError : Bool
  /-- `page._created`, set only in the n8n variant. -/
  created : Nat
deriving Repr, DecidableEq

/-- `validate` of `createPagePool` in `src/server.mjs` lines 294-301:
`page && !page._isClosed && browser && browser.isConnected()`.  The page's
age is not consulted. -/
def validateServer (page : Option PageRecord) (browserConnected : Bool) :
    Bool :=
  match page with
  | none => false
  | some p => !p.isClosed && browserConnected

/-- The n8n variant's maximum page age (src/server-n8n-optimized.mjs line
231): 5 minutes. -/
def N8N_MAX_PAGE_AGE : Nat := 300000

/-- `validate` of `createPagePool` in `src/server-n8n-optimized.mjs` lines
225-237: page present, not closed, no page error, browser connected, and
`Date.now() - page._created < 300000`. -/
def validateN8n (page : Option PageRecord) (browserConnected : Bool)
    (now : Nat) : Bool :=
  match page with
  | none => false
  | some p =>
    !p.isClosed && !p.hasError && browserConnected &&
      decide ((now : ℤ) - p.created < N8N_MAX_PAGE_AGE)

/-! ## Request interception policies (for C9) -/

inductive RequestAction where
  | cont
  | abort
deriving Repr, DecidableEq

/-- The blocked resource types of `src/server.mjs` lines 271-279. -/
def serverBlockedTypes : List String :=
  ["image", "media", "font", "texttrack", "object", "beacon",
   "csp_report", "imageset"]

/-- The request handler installed in `createPagePool.create`
(src/server.mjs lines 268-280): abort the blocked types, continue
everything else. -/
def serverIntercept (resourceType : String) : RequestAction :=
  if serverBlockedTypes.contains resourceType then .abort else .cont

/-- The allowed resource types of `src/server-n8n-optimized.mjs` line
196. -/
def n8nAllowedTypes : List String := ["document", "script"]

/-- The request handler of `src/server-n8n-optimized.mjs` lines 192-203:
continue the allowed types, abort everything else. -/
def n8nIntercept (resourceType : String) : RequestAction :=
  if n8nAllowedTypes.contains resourceType then .cont else .abort

/-- The allow-list asserted by the specification: document, script, XHR,
fetch and stylesheet. -/
def specAllowedTypes : List String :=
  ["document", "script", "xhr", "fetch", "stylesheet"]

/-! ## Queue timeout semantics (for C7)

Modelled from the spec: the hard per-job wall-clock timeout the Job Queue
contract describes (p-queue's `timeout`/`throwOnTimeout` options; the
library is external).  A job either finishes after some duration or hangs
forever; with a timeout configured and `throwOnTimeout`, an overrunning or
hanging job is settled with a timeout rejection; with no timeout, a
hanging job never settles (`none`: the caller waits indefinitely). -/

inductive JobBehavior where
  | finishes (duration : Nat) (result : ScrapeResult)
  | hangs
deriving Repr, DecidableEq

def queueRun (o : QueueOptions) (j : JobBehavior) :
    Option (Except String ScrapeResult) :=
  match j with
  | .finishes d r =>
    match o.timeout with
    | some t =>
      if d > t then
        if o.throwOnTimeout then some (.error "Promise timed out")
        else some (.ok r)
      else some (.ok r)
    | none => some (.ok r)
  | .hangs =>
    match o.timeout with
    | some _ =>
      if o.throwOnTimeout then some (.error "Promise timed out") else none
    | none => none

/-! # Helper lemmas -/

/-- The 75% threshold comparison, carried out in exact rational
arithmetic as the JS doubles do, is equivalent to the integer comparison
`3 * n ≤ 4 * s`. -/
lemma threshold_iff (s n : ℕ) :
    ((n : ℚ) * (3 / 4) ≤ (s : ℚ)) ↔ 3 * n ≤ 4 * s := by
  constructor
  · intro h
    have h4 : ((3 * n : ℕ) : ℚ) ≤ ((4 * s : ℕ) : ℚ) := by push_cast; linarith
    exact_mod_cast h4
  · intro h
    have h4 : ((3 * n : ℕ) : ℚ) ≤ ((4 * s : ℕ) : ℚ) := by exact_mod_cast h
    push_cast at h4
    linarith

/-- The login classifier succeeds exactly when the URL changed or at
least 75% of the steps succeeded. -/
lemma classifyLogin_eq_true_iff (cu lu : String) (s n : ℕ) :
    classifyLogin cu lu s n = true ↔ (cu ≠ lu ∨ 4 * s ≥ 3 * n) := by
  constructor
  · intro h
    unfold classifyLogin at h
    split_ifs at h with h1 h2
    · exact Or.inl h1
    · exact Or.inr ((threshold_iff s n).mp h2)
  · intro h
    unfold classifyLogin
    split_ifs with h1 h2
    · rfl
    · rfl
    · rcases h with h | h
      · exact absurd h h1
      · exact absurd ((threshold_iff s n).mpr h) h2

/-- An all-`wait` step list yields a success count equal to its length,
whatever the environment and starting index. -/
lemma runLoginSteps_all_wait (env : Nat → Bool) (steps : List LoginStep)
    (hw : ∀ s ∈ steps, isWaitStep s = true) :
    ∀ i, runLoginSteps env i steps = steps.length := by
  induction steps with
  | nil => intro i; rfl
  | cons a rest ih =>
    intro i
    have ha := hw a (by simp)
    have hrest : ∀ s ∈ rest, isWaitStep s = true :=
      fun s hs => hw s (by simp [hs])
    cases a with
    | wait t =>
      simp [runLoginSteps, stepSucceeds, ih hrest (i + 1), Nat.add_comm]
    | input sel k => simp [isWaitStep] at ha
    | click sel => simp [isWaitStep] at ha
    | clickText txt => simp [isWaitStep] at ha

/-! # Claim theorems -/

/-- A sample environment for witnesses. -/
def sampleRunEnv : RunEnv :=
  { browserConnected := true, browserRecovers := true,
    acquire := fun _ => .ok false, scraper := imageResult [1] }

/-- C2: for every job whose `url` field is absent, fails to parse as a
URL, or has a scheme other than http or https, `runScrapeJob` returns the
structured JSON failure naming the invalid URL and makes no
`pagePool.acquire` call (acquire count 0), so the pool's create/acquire
path is never reached for that job. -/
theorem runScrapeJob_rejects_invalid_url_without_acquire
    (env : RunEnv) (ctx : ScrapeContext)
    (h : ctx.url = none ∨ ∃ u, ctx.url = some u ∧ isValidUrl u = false) :
    runScrapeJob env ctx = (.ok (invalidUrlResult ctx.url), 0) := by
  obtain ⟨url⟩ := ctx
  rcases h with h | ⟨u, hu, hv⟩
  · simp only at h
    subst h
    rfl
  · simp only at hu
    subst hu
    simp [runScrapeJob, hv]

/-- Witness for C2 at the concrete non-http URL `ftp://example.com`. -/
theorem runScrapeJob_rejects_invalid_url_witness :
    runScrapeJob sampleRunEnv ⟨some "ftp://example.com"⟩ =
      (.ok (invalidUrlResult (some "ftp://example.com")), 0) :=
  runScrapeJob_rejects_invalid_url_without_acquire sampleRunEnv
    ⟨some "ftp://example.com"⟩
    (Or.inr ⟨"ftp://example.com", rfl, by decide⟩)

/-- C4: past its guard, `handleBrowserCrash` increments the attempt
counter; if the incremented counter exceeds `MAX_RESTART_ATTEMPTS` (5)
the call terminates the process (`fatalExit`) with no teardown or further
in-process recovery; a successful reinitialization resets the counter to
zero; a failed one keeps the incremented counter and schedules a retry. -/
theorem restart_attempt_discipline (r : Bool) (s : RestartState)
    (h : s.isRestarting = false) :
    (s.restartAttempts + 1 > MAX_RESTART_ATTEMPTS →
      handleBrowserCrash r s =
        ({ s with
            isRestarting := true
            restartAttempts := s.restartAttempts + 1 }, .fatalExit)) ∧
    (s.restartAttempts + 1 ≤ MAX_RESTART_ATTEMPTS → r = true →
      (handleBrowserCrash r s).1.restartAttempts = 0 ∧
      (handleBrowserCrash r s).1.isRestarting = false ∧
      (handleBrowserCrash r s).2 = .success) ∧
    (s.restartAttempts + 1 ≤ MAX_RESTART_ATTEMPTS → r = false →
      (handleBrowserCrash r s).1.restartAttempts = s.restartAttempts + 1 ∧
      (handleBrowserCrash r s).2 = .failureRetry) := by
  refine ⟨?_, ?_, ?_⟩
  · intro hgt
    simp [handleBrowserCrash, h, hgt]
  · intro hle hr
    subst hr
    have hngt : ¬ s.restartAttempts + 1 > MAX_RESTART_ATTEMPTS := by omega
    simp [handleBrowserCrash, h, hngt]
  · intro hle hr
    subst hr
    have hngt : ¬ s.restartAttempts + 1 > MAX_RESTART_ATTEMPTS := by omega
    simp [handleBrowserCrash, h, hngt]

/-- Witness for C4: from 5 prior attempts, a sixth entry exits fatally. -/
theorem restart_attempt_discipline_witness :
    handleBrowserCrash true ⟨false, 5, false, 5⟩ =
      (⟨true, 6, false, 5⟩, .fatalExit) :=
  (restart_attempt_discipline true ⟨false, 5, false, 5⟩ rfl).1 (by decide)

/-- C5: invoking `handleBrowserCrash` while a restart sequence is already
in progress is a no-op: the state (attempt counter, teardown count,
flags) is unchanged and only the `skipped` event is produced, so at most
one restart sequence runs at a time. -/
theorem restart_reentry_noop (r : Bool) (s : RestartState)
    (h : s.isRestarting = true) :
    handleBrowserCrash r s = (s, .skipped) := by
  simp [handleBrowserCrash, h]

/-- Witness for C5 at a concrete mid-restart state. -/
theorem restart_reentry_noop_witness :
    handleBrowserCrash true ⟨true, 2, true, 7⟩ =
      (⟨true, 2, true, 7⟩, .skipped) :=
  restart_reentry_noop true ⟨true, 2, true, 7⟩ rfl

/-- C6: the screenshot stage makes up to 3 raced attempts; after a third
failure it makes exactly one fallback attempt at reduced resolution and
lower quality; a successful fallback makes the stage (and hence the job)
return the fallback artifact; only a failed fallback yields a capture
failure (carrying the third attempt's error); and an attempt that
outlives the 30s timer rejects with `Screenshot timeout`. -/
theorem screenshot_retry_fallback (shoot : ShotParams → Nat → ShotCall)
    (e1 e2 e3 : String)
    (h1 : racedShot (shoot mainShotParams 1) = .err e1)
    (h2 : racedShot (shoot mainShotParams 2) = .err e2)
    (h3 : racedShot (shoot mainShotParams 3) = .err e3) :
    (∀ b, (shoot fallbackShotParams 4).outcome = .ok b →
      screenshotStage shoot = imageResult b) ∧
    (∀ ef, (shoot fallbackShotParams 4).outcome = .err ef →
      screenshotStage shoot = jsonFailure e3) ∧
    fallbackShotParams.quality < mainShotParams.quality ∧
    fallbackShotParams.width < mainShotParams.width ∧
    fallbackShotParams.height < mainShotParams.height ∧
    (∀ c : ShotCall, SCREENSHOT_TIMEOUT ≤ c.duration →
      racedShot c = .err "Screenshot timeout") := by
  refine ⟨?_, ?_, by decide, by decide, by decide, ?_⟩
  · intro b hb
    simp [screenshotStage, screenshotLoopGo, h1, h2, h3, hb]
  · intro ef hf
    simp [screenshotStage, screenshotLoopGo, h1, h2, h3, hf]
  · intro c hc
    simp [racedShot, hc]

/-- A screenshot environment whose three main attempts all time out and
whose fallback attempt succeeds. -/
def sampleShoot : ShotParams → Nat → ShotCall :=
  fun p _ =>
    if p = mainShotParams then ⟨40000, .err "boom"⟩ else ⟨100, .ok [9, 9]⟩

/-- Witness for C6: three timed-out attempts then a successful fallback
make the stage return the fallback bytes. -/
theorem screenshot_retry_fallback_witness :
    screenshotStage sampleShoot = imageResult [9, 9] :=
  (screenshot_retry_fallback sampleShoot "Screenshot timeout"
    "Screenshot timeout" "Screenshot timeout"
    (by decide) (by decide) (by decide)).1 [9, 9] (by decide)

/-- C10: a `wait` login step counts as a success unconditionally, so for
a step sequence consisting only of `wait` steps the success count equals
the length, the 75% threshold is met, and login is classified successful
even when the URL is unchanged. -/
theorem wait_steps_force_login_success (env : Nat → Bool)
    (steps : List LoginStep) (url : String)
    (hw : ∀ s ∈ steps, isWaitStep s = true) :
    (∀ ok t, stepSucceeds ok (.wait t) = true) ∧
    runLoginSteps env 0 steps = steps.length ∧
    4 * runLoginSteps env 0 steps ≥ 3 * steps.length ∧
    classifyLogin url url (runLoginSteps env 0 steps) steps.length
      = true := by
  have hall := runLoginSteps_all_wait env steps hw 0
  refine ⟨fun ok t => rfl, hall, by rw [hall]; omega, ?_⟩
  rw [classifyLogin_eq_true_iff]
  exact Or.inr (by rw [hall]; omega)

/-- Witness for C10 with two concrete wait steps, every fallible
interaction failing, and an unchanged URL. -/
theorem wait_steps_force_login_success_witness :
    classifyLogin "https://l.test/login" "https://l.test/login"
      (runLoginSteps (fun _ => false) 0 [.wait none, .wait (some 500)])
      ([LoginStep.wait none, .wait (some 500)].length) = true :=
  (wait_steps_force_login_success (fun _ => false)
    [.wait none, .wait (some 500)] "https://l.test/login" (by decide)).2.2.2

/-- C3: after executing the login steps for a matched site (outside the
Winsupply redirect special case), login is classified successful iff the
current URL differs from the login URL or at least 75% of the steps
succeeded; with an unchanged URL, 4 successes out of 5 steps classify as
success and 2 out of 4 as failure; and the pipeline navigates to the
target URL in every case, whatever the login outcome. -/
theorem login_classification_threshold :
    (∀ (env : PSEnv) (url : String) (site : LoginSite),
      winsupplyRedirect env site = false →
      ((priceScraperModel env url (some site)).2.2 = some true ↔
        (env.urlAfterSteps ≠ site.url ∨
          4 * runLoginSteps env.stepOk 0 site.steps ≥
            3 * site.steps.length))) ∧
    (∀ (u : String) (s n : ℕ),
      (classifyLogin u u s n = true ↔ 4 * s ≥ 3 * n)) ∧
    classifyLogin "u" "u" 4 5 = true ∧
    classifyLogin "u" "u" 2 4 = false ∧
    (∀ (env : PSEnv) (url : String) (matched : Option LoginSite),
      PipeAction.navGoto url ∈ (priceScraperModel env url matched).2.1) := by
  refine ⟨?_, ?_, ?_, ?_, ?_⟩
  · intro env url site hws
    cases hnav : navAttempts env.navOk <;>
      simp [priceScraperModel, hnav, loginPhase, hws,
        classifyLogin_eq_true_iff]
  · intro u s n
    rw [classifyLogin_eq_true_iff]
    simp
  · rw [classifyLogin_eq_true_iff]
    exact Or.inr (by omega)
  · rw [Bool.eq_false_iff, Ne, classifyLogin_eq_true_iff]
    rintro (h | h)
    · exact h rfl
    · omega
  · intro env url matched
    unfold priceScraperModel
    cases hnav : navAttempts env.navOk <;> cases matched <;> simp

/-- A five-step login site for the C3 witness. -/
def site5 : LoginSite :=
  { site := "acme", url := "https://login.acme.test/login",
    steps := [.click "a", .click "b", .click "c", .click "d", .click "e"] }

/-- A pipeline environment where steps 0-3 succeed, step 4 fails, the URL
stays on the login page, navigation succeeds, and the screenshot is
captured first try. -/
def env80 : PSEnv :=
  { stepOk := fun i => decide (i < 4)
    urlAtLoginPage := "https://login.acme.test/login"
    urlAfterSteps := "https://login.acme.test/login"
    navOk := fun _ => true
    navErrMsg := "nav failed"
    shoot := fun _ _ => ⟨100, .ok [3, 1, 4]⟩ }

/-- Witness for C3: an 80% step-success run with unchanged URL is
classified as login success. -/
theorem login_classification_threshold_witness :
    (priceScraperModel env80 "https://www.acme.test/item"
      (some site5)).2.2 = some true :=
  (login_classification_threshold.1 env80 "https://www.acme.test/item"
    site5 (by decide)).mpr (Or.inr (by decide))

/-- C7 counterexample: the queue of `src/server.mjs` is constructed with
no `timeout` option at all (`new PQueue({ concurrency: 1 })`), so a job
that hangs is never settled by the queue — the claim that every admitted
job runs under a hard wall-clock timeout is false for this queue. -/
theorem server_queue_no_timeout :
    queueRun serverQueueOptions JobBehavior.hangs = none ∧
    serverQueueOptions.timeout = none ∧
    serverQueueOptions.throwOnTimeout = false :=
  ⟨rfl, rfl, rfl⟩

/-- C7 amended: only the n8n-optimized queue (45s timeout,
`throwOnTimeout: true`) settles every admitted job — with a timeout error
when the job overruns or hangs, and with the job's result otherwise. -/
theorem n8n_queue_hard_timeout :
    (∀ j, (queueRun n8nQueueOptions j).isSome = true) ∧
    queueRun n8nQueueOptions .hangs = some (.error "Promise timed out") ∧
    (∀ (d : ℕ) (r : ScrapeResult), d > 45000 →
      queueRun n8nQueueOptions (.finishes d r) =
        some (.error "Promise timed out")) ∧
    (∀ (d : ℕ) (r : ScrapeResult), d ≤ 45000 →
      queueRun n8nQueueOptions (.finishes d r) = some (.ok r)) := by
  refine ⟨?_, rfl, ?_, ?_⟩
  · intro j
    cases j with
    | finishes d r =>
      simp only [queueRun, n8nQueueOptions]
      split <;> simp
    | hangs => rfl
  · intro d r hd
    simp [queueRun, n8nQueueOptions, hd]
  · intro d r hd
    have hngt : ¬ d > 45000 := by omega
    simp [queueRun, n8nQueueOptions, hngt]

/-- Witness for C7's amended claim: a 46s job is settled with the timeout
error. -/
theorem n8n_queue_hard_timeout_witness :
    queueRun n8nQueueOptions (.finishes 46000 (imageResult [1])) =
      some (.error "Promise timed out") :=
  n8n_queue_hard_timeout.2.2.1 46000 (imageResult [1]) (by omega)

/-- C8 counterexample: no maximum age makes the `server.mjs` validate
callback reject old resources — a page that is open, error-free and on a
connected browser validates true at any age (here: a page created at 0,
observed arbitrarily later). -/
theorem validateServer_no_age_check :
    ¬ ∃ maxAge : Nat, ∀ (p : PageRecord) (connected : Bool) (now : Nat),
        now - p.created > maxAge →
        validateServer (some p) connected = false := by
  rintro ⟨maxAge, h⟩
  have hc := h ⟨false, false, 0⟩ true (maxAge + 1)
    (by show maxAge + 1 - 0 > maxAge; omega)
  simp [validateServer] at hc

/-- C8 amended: the n8n variant's `validate` is false exactly when the
page's age reaches 5 minutes, the page is closed, the page errored, or
the browser is disconnected; the `server.mjs` `validate` is false exactly
when the page is closed or the browser is disconnected — it performs no
age check; a missing page fails both. -/
theorem pool_validate_conditions :
    (∀ (p : PageRecord) (connected : Bool) (now : Nat),
      (validateN8n (some p) connected now = false ↔
        ((N8N_MAX_PAGE_AGE : ℤ) ≤ (now : ℤ) - p.created ∨
          p.isClosed = true ∨ p.hasError = true ∨ connected = false))) ∧
    (∀ (p : PageRecord) (connected : Bool),
      (validateServer (some p) connected = false ↔
        (p.isClosed = true ∨ connected = false))) ∧
    validateN8n none true 0 = false ∧
    validateServer none true = false := by
  refine ⟨?_, ?_, rfl, rfl⟩
  · intro p connected now
    rcases p with ⟨ic, he, cr⟩
    cases ic <;> cases he <;> cases connected <;>
      simp [validateN8n, N8N_MAX_PAGE_AGE, not_lt]
  · intro p connected
    rcases p with ⟨ic, he, cr⟩
    cases ic <;> cases connected <;> simp [validateServer]

/-- C9 counterexample: `server.mjs` continues a `websocket` request even
though websocket is not in the claimed five-type allow-list, and the n8n
variant aborts a `stylesheet` request even though stylesheet is in it. -/
theorem interception_allowlist_counterexample :
    serverIntercept "websocket" = .cont ∧
    "websocket" ∉ specAllowedTypes ∧
    n8nIntercept "stylesheet" = .abort ∧
    "stylesheet" ∈ specAllowedTypes :=
  ⟨by decide, by decide, by decide, by decide⟩

/-- C9 amended: `server.mjs` aborts exactly the eight blocked resource
types and continues every other type (so all five claimed types proceed,
but so do types outside the claimed list); the n8n variant continues
exactly `document` and `script` and aborts everything else. -/
theorem interception_policies :
    (∀ t, serverIntercept t = .abort ↔ t ∈ serverBlockedTypes) ∧
    (∀ t, n8nIntercept t = .cont ↔ t ∈ n8nAllowedTypes) ∧
    (∀ t, t ∈ specAllowedTypes → serverIntercept t = .cont) := by
  refine ⟨?_, ?_, ?_⟩
  · intro t
    by_cases h : t ∈ serverBlockedTypes <;>
      simp [serverIntercept, h]
  · intro t
    by_cases h : t ∈ n8nAllowedTypes <;>
      simp [n8nIntercept, h]
  · intro t ht
    have hnb : t ∉ serverBlockedTypes := by
      fin_cases ht <;> decide
    simp [serverIntercept, hnb]

/-- Witness for C9's amended claim at the concrete type `xhr`. -/
theorem interception_policies_witness :
    serverIntercept "xhr" = RequestAction.cont :=
  interception_policies.2.2 "xhr" (by decide)

/-- The serialization invariant holds initially. -/
lemma serialInv_init (jobs : List Nat) : SerialInv (initState jobs) :=
  ⟨by simp [initState], by simp [initState], by simp [initState],
    by simp [initState]⟩

/-- One step of the concurrency-1 scheduler preserves the serialization
invariant. -/
lemma serialInv_step {s t : SchedState} (st : QStep 1 s t)
    (inv : SerialInv s) : SerialInv t := by
  obtain ⟨hlen, hfin, hrun, hpair⟩ := inv
  cases st with
  | dispatch j rest hw hc =>
    have hre : s.running = [] := by
      cases hs : s.running with
      | nil => rfl
      | cons a l => rw [hs] at hc; simp at hc
    refine ⟨?_, ?_, ?_, ?_⟩ <;> dsimp only
    · simp [hre]
    · intro e he
      exact ⟨(hfin e he).1, by have := (hfin e he).2; omega⟩
    · intro r hr
      rw [hre] at hr
      simp only [List.mem_singleton] at hr
      subst hr
      dsimp only
      exact ⟨by omega, fun e he => (hfin e he).2⟩
    · exact hpair
  | finish j t0 pre post hr2 =>
    have hl : pre.length + post.length + 1 ≤ 1 := by
      rw [hr2] at hlen
      simp [List.length_append] at hlen
      omega
    have hpre : pre = [] := List.eq_nil_of_length_eq_zero (by omega)
    have hpost : post = [] := List.eq_nil_of_length_eq_zero (by omega)
    subst hpre
    subst hpost
    have hmem : (j, t0) ∈ s.running := by rw [hr2]; simp
    have hjt : t0 < s.clock ∧ ∀ e ∈ s.finished, e.2.2 ≤ t0 :=
      hrun (j, t0) hmem
    refine ⟨?_, ?_, ?_, ?_⟩ <;> dsimp only
    · simp
    · intro e he
      simp only [List.mem_cons] at he
      rcases he with he | he
      · subst he
        dsimp only
        exact ⟨hjt.1, by omega⟩
      · exact ⟨(hfin e he).1, by have := (hfin e he).2; omega⟩
    · intro r hr
      simp at hr
    · exact List.Pairwise.cons (fun e he => Or.inr (hjt.2 e he)) hpair
  | tick =>
    refine ⟨?_, ?_, ?_, ?_⟩ <;> dsimp only
    · exact hlen
    · intro e he
      exact ⟨(hfin e he).1, by have := (hfin e he).2; omega⟩
    · intro r hr
      exact ⟨by have := (hrun r hr).1; omega, (hrun r hr).2⟩
    · exact hpair

/-- C1: the server queue is configured with concurrency exactly 1 and the
page pool with at most one page; in the serialized-executor semantics,
every state reachable from an initial job list keeps at most one job in
flight, so the resource-held intervals of any two completed jobs never
overlap. -/
theorem queue_serializes_resource_access (jobs : List Nat)
    (s : SchedState)
    (h : Relation.ReflTransGen (QStep serverQueueOptions.concurrency)
      (initState jobs) s) :
    serverQueueOptions.concurrency = 1 ∧ serverPoolOptions.max = 1 ∧
    s.running.length ≤ 1 ∧
    s.finished.Pairwise IntervalsDisjoint := by
  have hinv : SerialInv s := by
    induction h with
    | refl => exact serialInv_init jobs
    | tail hab hbc ih => exact serialInv_step hbc ih
  exact ⟨rfl, rfl, hinv.1, hinv.2.2.2⟩

/-- Witness for C1: a concrete two-job run — dispatch job 0, finish it,
dispatch job 1, finish it — reaches a state whose two recorded intervals
are disjoint. -/
theorem queue_serializes_resource_access_witness :
    serverQueueOptions.concurrency = 1 ∧ serverPoolOptions.max = 1 ∧
    (SchedState.mk [] [] [(1, 2, 3), (0, 0, 1)] 4).running.length ≤ 1 ∧
    (SchedState.mk [] [] [(1, 2, 3), (0, 0, 1)] 4).finished.Pairwise
      IntervalsDisjoint := by
  apply queue_serializes_resource_access [0, 1]
  have st1 : QStep 1 (initState [0, 1]) ⟨[1], [(0, 0)], [], 1⟩ :=
    QStep.dispatch _ 0 [1] rfl (by decide)
  have st2 : QStep 1 ⟨[1], [(0, 0)], [], 1⟩ ⟨[1], [], [(0, 0, 1)], 2⟩ :=
    QStep.finish _ 0 0 [] [] rfl
  have st3 : QStep 1 ⟨[1], [], [(0, 0, 1)], 2⟩
      ⟨[], [(1, 2)], [(0, 0, 1)], 3⟩ :=
    QStep.dispatch _ 1 [] rfl (by decide)
  have st4 : QStep 1 ⟨[], [(1, 2)], [(0, 0, 1)], 3⟩
      ⟨[], [], [(1, 2, 3), (0, 0, 1)], 4⟩ :=
    QStep.finish _ 1 2 [] [] rfl
  exact ((((Relation.ReflTransGen.refl).tail st1).tail st2).tail
    st3).tail st4

end MaterialScrape
